import Mathlib

/-!
# Verification of the A2A router orchestration engine

This file gives a shallow embedding of the intent classifier, entity
extraction and per-route orchestration of `src/agents/router_agent.py`
(`classify_intent`, `router_call`, `router_message`, `build_response`,
`data_call` / `support_call`), and proves or refutes the frozen claims
about it.

Modelling conventions:
* Python/JSON dynamic values are modelled by the inductive `JVal`
  (JSON numbers restricted to integers; no claim involves floats).
* Python dicts are association lists with first-match lookup.
* `str.lower()` is modelled ASCII-accurately by `lowerChar`/`pyLowerS`
  (every string in the program and in the claims is ASCII).
* The two regex searches `id\s+(\d+)`, `customer\s+(\d+)` and
  `update my email to ([^\s]+)` are modelled by the leftmost-match
  scanners `searchKwNum` and `searchTokAfter`; since `\s`, `\d` and
  `[^\s]` are disjoint from the literal parts, Python's leftmost greedy
  semantics is exactly the deterministic scan implemented here.
* The outbound HTTP collaborator calls are an oracle
  `Oracle : Call → Transport`: `Transport.down` covers a transport
  exception or a non-2xx status (`raise_for_status`), `Transport.ok js`
  a decoded JSON body.  A Python exception anywhere in `router_call`
  (collaborator failure, `KeyError`, `TypeError`, `int()` failure) is
  the `Except.error` outcome: FastAPI turns it into a generic failure
  response with no envelope, which is out of scope.
-/

/-- ASCII lower-casing of one character, as `str.lower()` does on ASCII
(written as the explicit letter table to keep character-level reasoning
elementary). -/
def lowerChar (c : Char) : Char :=
  if c = 'A' then 'a' else if c = 'B' then 'b' else if c = 'C' then 'c'
  else if c = 'D' then 'd' else if c = 'E' then 'e' else if c = 'F' then 'f'
  else if c = 'G' then 'g' else if c = 'H' then 'h' else if c = 'I' then 'i'
  else if c = 'J' then 'j' else if c = 'K' then 'k' else if c = 'L' then 'l'
  else if c = 'M' then 'm' else if c = 'N' then 'n' else if c = 'O' then 'o'
  else if c = 'P' then 'p' else if c = 'Q' then 'q' else if c = 'R' then 'r'
  else if c = 'S' then 's' else if c = 'T' then 't' else if c = 'U' then 'u'
  else if c = 'V' then 'v' else if c = 'W' then 'w' else if c = 'X' then 'x'
  else if c = 'Y' then 'y' else if c = 'Z' then 'z' else c

/-- `str.lower()` on the character list of a string. -/
def pyLower (l : List Char) : List Char := l.map lowerChar

/-- `str.lower()`. -/
def pyLowerS (s : String) : String := String.mk (pyLower s.data)

/-- Python `\s` (ASCII whitespace classes used by `re`). -/
def isPySpace (c : Char) : Bool :=
  c = ' ' || c = '\t' || c = '\n' || c = '\r' || c = '\x0b' || c = '\x0c'

/-- Python `\d` on ASCII. -/
def isPyDigit (c : Char) : Bool := '0' ≤ c && c ≤ '9'

/-- Does `p` occur at the very start of `l`? -/
def listStarts : List Char → List Char → Bool
  | [], _ => true
  | _ :: _, [] => false
  | p :: ps, c :: cs => p == c && listStarts ps cs

/-- Substring containment, Python's `needle in hay` on strings. -/
def containsSub (needle : List Char) : List Char → Bool
  | [] => listStarts needle []
  | c :: cs => listStarts needle (c :: cs) || containsSub needle cs

/-- Python `needle in hay` on `String`s. -/
def strIn (needle hay : String) : Bool := containsSub needle.data hay.data

/-- Value of a non-empty digit string, as Python `int` reads the regex group. -/
def digitsToNat (l : List Char) : Nat :=
  l.foldl (fun a c => 10 * a + (c.toNat - '0'.toNat)) 0

/-- One attempt of the pattern `kw\s+(\d+)` anchored at the head of `l`:
the literal `kw`, then one or more whitespace characters, then the greedy
(maximal) digit group. -/
def kwNumAt (kw : List Char) (l : List Char) : Option Nat :=
  if listStarts kw l then
    let rest := l.drop kw.length
    let ws := rest.takeWhile isPySpace
    if ws.isEmpty then none
    else
      let ds := (rest.drop ws.length).takeWhile isPyDigit
      if ds.isEmpty then none else some (digitsToNat ds)
  else none

/-- `re.search(kw + r"\s+(\d+)", l)`: leftmost match, greedy digit group. -/
def searchKwNum (kw : List Char) : List Char → Option Nat
  | [] => kwNumAt kw []
  | c :: cs =>
    match kwNumAt kw (c :: cs) with
    | some n => some n
    | none => searchKwNum kw cs

/-- One attempt of the pattern `kw([^\s]+)` anchored at the head of `l`:
the literal `kw` (which ends in a space for the e-mail pattern), then the
greedy non-whitespace group. -/
def tokAfterAt (kw : List Char) (l : List Char) : Option (List Char) :=
  if listStarts kw l then
    if ((l.drop kw.length).takeWhile (fun c => !isPySpace c)).isEmpty then none
    else some ((l.drop kw.length).takeWhile (fun c => !isPySpace c))
  else none

/-- `re.search(kw + r"([^\s]+)", l)`: leftmost match, greedy group. -/
def searchTokAfter (kw : List Char) : List Char → Option (List Char)
  | [] => tokAfterAt kw []
  | c :: cs =>
    match tokAfterAt kw (c :: cs) with
    | some t => some t
    | none => searchTokAfter kw cs

/-- Dynamic JSON/Python values exchanged with the collaborators
(numbers restricted to integers, see the header comment). -/
inductive JVal : Type where
  | null : JVal
  | jbool : Bool → JVal
  | jnum : Int → JVal
  | jstr : String → JVal
  | jarr : List JVal → JVal
  | jobj : List (String × JVal) → JVal
deriving Repr

/-- First-match association lookup, Python dict access. -/
def lookupKV (k : String) : List (String × JVal) → Option JVal
  | [] => none
  | (k', v) :: kvs => if k' = k then some v else lookupKV k kvs

/-- `classify_intent` from `router_agent.py`, line for line: lower-case the
text, then the fixed keyword cascade, defaulting to `"DATA"`. -/
def classify_intent (text : String) : String :=
  let t := pyLowerS text
  if (strIn "active customers" t && strIn "open ticket" t)
      || (strIn "active customers" t && strIn "open tickets" t) then "MULTI_OPEN"
  else if strIn "update my email" t && strIn "ticket history" t then "MULTI_UPDATE"
  else if strIn "upgrade" t || strIn "upgrading my account" t then "MULTI_COORD"
  else if strIn "charged twice" t || strIn "refund" t
      || strIn "cancel" t || strIn "billing" t then "SUPPORT"
  else if strIn "get customer information" t || strIn "get customer info" t
      || strIn "customer id" t then "DATA"
  else "DATA"

/-- The trigger predicate of one intent label on the lower-cased text,
following the spec's rule table (§4.1). -/
def ruleMatches (intent : String) (t : String) : Bool :=
  if intent = "MULTI_OPEN" then
    strIn "active customers" t && (strIn "open ticket" t || strIn "open tickets" t)
  else if intent = "MULTI_UPDATE" then
    strIn "update my email" t && strIn "ticket history" t
  else if intent = "MULTI_COORD" then
    strIn "upgrade" t || strIn "upgrading my account" t
  else if intent = "SUPPORT" then
    strIn "charged twice" t || strIn "refund" t || strIn "cancel" t || strIn "billing" t
  else if intent = "DATA" then
    strIn "get customer information" t || strIn "get customer info" t || strIn "customer id" t
  else false

/-- The spec's fixed priority order of the classification rules. -/
def priorityOrder : List String :=
  ["MULTI_OPEN", "MULTI_UPDATE", "MULTI_COORD", "SUPPORT", "DATA"]

/-- Classification as the spec words it: the intent of the first matching
rule in `priorityOrder`, defaulting to `"DATA"`. -/
def specClassify (text : String) : String :=
  (priorityOrder.find? (fun i => ruleMatches i (pyLowerS text))).getD "DATA"

mutual

/-- Python `str(v)`: identity on strings, `repr` on container elements. -/
def pyStr : JVal → String
  | .null => "None"
  | .jbool true => "True"
  | .jbool false => "False"
  | .jnum n => toString n
  | .jstr s => s
  | .jarr xs => "[" ++ pyReprArr xs ++ "]"
  | .jobj kvs => "\x7b" ++ pyReprObj kvs ++ "\x7d"

/-- Python `repr(v)` (strings quoted), used inside containers. -/
def pyRepr : JVal → String
  | .null => "None"
  | .jbool true => "True"
  | .jbool false => "False"
  | .jnum n => toString n
  | .jstr s => "'" ++ s ++ "'"
  | .jarr xs => "[" ++ pyReprArr xs ++ "]"
  | .jobj kvs => "\x7b" ++ pyReprObj kvs ++ "\x7d"

def pyReprArr : List JVal → String
  | [] => ""
  | [x] => pyRepr x
  | x :: xs => pyRepr x ++ ", " ++ pyReprArr xs

def pyReprObj : List (String × JVal) → String
  | [] => ""
  | [(k, v)] => "'" ++ k ++ "': " ++ pyRepr v
  | (k, v) :: kvs => "'" ++ k ++ "': " ++ pyRepr v ++ ", " ++ pyReprObj kvs

end

/-- Python truthiness of a JSON value. -/
def jTruthy : JVal → Bool
  | .null => false
  | .jbool b => b
  | .jnum n => n != 0
  | .jstr s => !s.isEmpty
  | .jarr xs => !xs.isEmpty
  | .jobj kvs => !kvs.isEmpty

/-- Errors that abort a plan: a transport failure, a collaborator error
value re-raised as `RuntimeError`, or a Python `TypeError` / `KeyError` /
`AttributeError` / `ValueError` during local processing. -/
inductive RErr : Type where
  | transport : RErr
  | collab : JVal → RErr
  | typeErr : RErr
deriving Repr

/-- Strip ASCII whitespace from both ends, as `int(str)` tolerates. -/
def stripWs (l : List Char) : List Char :=
  ((l.dropWhile isPySpace).reverse.dropWhile isPySpace).reverse

/-- Python `int(string)` on an optional-sign decimal literal. -/
def parsePyInt (l : List Char) : Option Int :=
  match stripWs l with
  | '+' :: ds => if !ds.isEmpty && ds.all isPyDigit then some (Int.ofNat (digitsToNat ds)) else none
  | '-' :: ds => if !ds.isEmpty && ds.all isPyDigit then some (-(Int.ofNat (digitsToNat ds))) else none
  | ds => if !ds.isEmpty && ds.all isPyDigit then some (Int.ofNat (digitsToNat ds)) else none

/-- Python `int(v)` on a JSON value (floats excluded, see header). -/
def pyInt : JVal → Except RErr Int
  | .jnum n => .ok n
  | .jbool b => .ok (if b then 1 else 0)
  | .jstr s =>
    match parsePyInt s.data with
    | some n => .ok n
    | none => .error .typeErr
  | _ => .error .typeErr

/-- `v.get(k, d)`: raises `AttributeError` when `v` is not a dict. -/
def getAttrD (v : JVal) (k : String) (d : JVal) : Except RErr JVal :=
  match v with
  | .jobj kvs => .ok ((lookupKV k kvs).getD d)
  | _ => .error .typeErr

/-- `v[k]` with a string key: `KeyError` when absent, `TypeError` when
`v` is not a dict. -/
def getItem (v : JVal) (k : String) : Except RErr JVal :=
  match v with
  | .jobj kvs =>
    match lookupKV k kvs with
    | some x => .ok x
    | none => .error .typeErr
  | _ => .error .typeErr

/-- Python iteration over a JSON value: list elements, string characters,
or dict keys; anything else raises `TypeError`. -/
def pyIter : JVal → Except RErr (List JVal)
  | .jarr xs => .ok xs
  | .jstr s => .ok (s.data.map fun ch => .jstr (String.mk [ch]))
  | .jobj kvs => .ok (kvs.map fun kv => .jstr kv.1)
  | _ => .error .typeErr

/-- One outbound collaborator call as issued by `data_call`/`support_call`:
the target agent, the tool name and the JSON arguments. -/
structure Call where
  agent : String
  tool : String
  args : List (String × JVal)
deriving Repr

/-- Transport-level outcome of one HTTP POST: an exception or non-2xx
status (`Transport.down`), or a decoded JSON body. -/
inductive Transport : Type where
  | down : Transport
  | ok : JVal → Transport

/-- The collaborators as a black box, one response per call. -/
abbrev Oracle := Call → Transport

/-- Python `"error" in js` (dict keys, list membership, substring). -/
def jHasError : JVal → Except RErr Bool
  | .jobj kvs => .ok (kvs.any fun kv => kv.1 == "error")
  | .jarr xs =>
    .ok (xs.any fun v =>
      match v with
      | .jstr s => s == "error"
      | _ => false)
  | .jstr s => .ok (strIn "error" s)
  | _ => .error .typeErr

/-- `js["error"]` after a positive membership test. -/
def jErrorVal : JVal → Except RErr JVal
  | .jobj kvs =>
    match lookupKV "error" kvs with
    | some v => .ok v
    | none => .error .typeErr
  | _ => .error .typeErr

/-- `js.get("result", js)`. -/
def getResultD : JVal → Except RErr JVal
  | .jobj kvs => .ok ((lookupKV "result" kvs).getD (.jobj kvs))
  | _ => .error .typeErr

/-- The body of `data_call` / `support_call` after the POST:
`raise_for_status()`, the `"error" in js` re-raise, then
`js.get("result", js)`. -/
def postProc : Transport → Except RErr JVal
  | .down => .error .transport
  | .ok js => do
    let he ← jHasError js
    if he then
      let ev ← jErrorVal js
      Except.error (.collab ev)
    else getResultD js

/-- One collaborator call end to end. -/
def doCall (oracle : Oracle) (c : Call) : Except RErr JVal := postProc (oracle c)

/-- Did the call `c` succeed under this oracle? -/
def stepOK (oracle : Oracle) (c : Call) : Bool :=
  match doCall oracle c with
  | .ok _ => true
  | .error _ => false

/-- The per-route raw result plus envelope header fields. -/
structure Payload where
  scenario : String
  route : String
  logs : List String
  final : JVal
deriving Repr

/-- The returned envelope: the four flat fields plus the `result` mirror. -/
structure Envelope where
  scenario : String
  route : String
  logs : List String
  final : JVal
  result : Payload
deriving Repr

/-- `build_response` from `router_agent.py`: clone the payload dict and
attach the clone under `result`. -/
def build_response (p : Payload) : Envelope :=
  { scenario := p.scenario, route := p.route, logs := p.logs, final := p.final, result := p }

/-- A structured response: the envelope, or the `{error: "Unknown tool"}`
object for an unrecognized tool. -/
inductive RouterResp : Type where
  | env : Envelope → RouterResp
  | errObj : String → RouterResp
deriving Repr

/-- Customer id for the `DATA` branch: `id <digits>` in the lower-cased
text, else `int(args.get("customer_id", 1))`. -/
def dataCidRes (query : String) (args : List (String × JVal)) : Except RErr Int :=
  match searchKwNum "id".data (pyLower query.data) with
  | some n => .ok (Int.ofNat n)
  | none => pyInt ((lookupKV "customer_id" args).getD (.jnum 1))

/-- The `get_customer` collaborator call. -/
def fetchCall (cid : Int) : Call :=
  ⟨"data", "get_customer", [("customer_id", .jnum cid)]⟩

/-- The `simple_support_reply` collaborator call. -/
def supportCall (query : String) : Call :=
  ⟨"support", "simple_support_reply", [("text", .jstr query)]⟩

/-- The `get_customer_history` collaborator call (the id is forwarded
as-is: an `int` in some branches, the raw `cust["id"]` in `MULTI_OPEN`). -/
def histCall (idV : JVal) : Call :=
  ⟨"data", "get_customer_history", [("customer_id", idV)]⟩

/-- The `list_customers` collaborator call of `MULTI_OPEN`. -/
def listCall : Call :=
  ⟨"data", "list_customers", [("status", .jstr "active"), ("limit", .jnum 200)]⟩

/-- The `update_customer` collaborator call of `MULTI_UPDATE`. -/
def updateCall (cid : Int) (emailV : JVal) : Call :=
  ⟨"data", "update_customer", [("customer_id", .jnum cid), ("data", .jobj [("email", emailV)])]⟩

/-- The `DATA` branch of `router_call` (lines 137-150). -/
def runData (oracle : Oracle) (query : String) (args : List (String × JVal)) :
    List Call × Except RErr Payload :=
  match dataCidRes query args with
  | .error e => ([], .error e)
  | .ok cid =>
    match doCall oracle (fetchCall cid) with
    | .error e => ([fetchCall cid], .error e)
    | .ok result =>
      ([fetchCall cid],
        .ok { scenario := "data", route := "router -> data",
              logs := ["Router classified as DATA", "Data Agent used MCP tools"],
              final := .jobj [("type", .jstr "get_customer"),
                              ("customer_id", .jnum cid),
                              ("customer", result)] })

/-- The `SUPPORT` branch of `router_call` (lines 153-157). -/
def runSupport (oracle : Oracle) (query : String) :
    List Call × Except RErr Payload :=
  match doCall oracle (supportCall query) with
  | .error e => ([supportCall query], .error e)
  | .ok js =>
    match getAttrD js "text" (.jstr "") with
    | .error e => ([supportCall query], .error e)
    | .ok textV =>
      ([supportCall query],
        .ok { scenario := "support", route := "router -> support",
              logs := ["Router classified as SUPPORT"], final := textV })

/-- The list comprehension filtering a history to its open tickets:
`str(t.get("status", "")).lower() == "open"`. -/
def collectOpenTix : List JVal → Except RErr (List JVal)
  | [] => .ok []
  | t :: ts => do
    let st ← getAttrD t "status" (.jstr "")
    let rest ← collectOpenTix ts
    if pyLowerS (pyStr st) = "open" then .ok (t :: rest) else .ok rest

/-- The comprehension `[t.get("issue") for t in open_tix if t.get("issue")]`
(Python truthiness, so `None` and `""` are both dropped). -/
def collectIssues : List JVal → Except RErr (List JVal)
  | [] => .ok []
  | t :: ts => do
    let iv ← getAttrD t "issue" .null
    let rest ← collectIssues ts
    if jTruthy iv then .ok (iv :: rest) else .ok rest

/-- The per-customer record appended for a customer with open tickets. -/
def openEntry (cust : JVal) (openTix : List JVal) : Except RErr JVal := do
  let nm ← getAttrD cust "name" .null
  let em ← getAttrD cust "email" .null
  let ph ← getAttrD cust "phone" .null
  let iss ← collectIssues openTix
  .ok (.jobj [("name", nm), ("email", em), ("phone", ph),
              ("open_tickets", .jnum (Int.ofNat openTix.length)),
              ("issues", .jarr iss)])

/-- The `for cust in customers` loop of the `MULTI_OPEN` branch: one
`get_customer_history` call per customer, collecting the entries of
customers that have at least one open ticket. -/
def openLoop (oracle : Oracle) : List JVal → List Call × Except RErr (List JVal)
  | [] => ([], .ok [])
  | cust :: rest =>
    match getItem cust "id" with
    | .error e => ([], .error e)
    | .ok idV =>
      match doCall oracle (histCall idV) with
      | .error e => ([histCall idV], .error e)
      | .ok hist =>
        match (do
            let tixV ← getAttrD hist "tickets" (.jarr [])
            let tix ← pyIter tixV
            collectOpenTix tix) with
        | .error e => ([histCall idV], .error e)
        | .ok openTix =>
          match (if openTix.isEmpty then .ok none else (openEntry cust openTix).map some) with
          | .error e => ([histCall idV], .error e)
          | .ok entryO =>
            match openLoop oracle rest with
            | (cs, res) =>
              (histCall idV :: cs, res.map fun entries =>
                match entryO with
                | some en => en :: entries
                | none => entries)

/-- The `MULTI_OPEN` branch of `router_call` (lines 161-179). -/
def runOpen (oracle : Oracle) : List Call × Except RErr Payload :=
  match doCall oracle listCall with
  | .error e => ([listCall], .error e)
  | .ok js =>
    match (do
        let csV ← getAttrD js "customers" (.jarr [])
        pyIter csV) with
    | .error e => ([listCall], .error e)
    | .ok customers =>
      match openLoop oracle customers with
      | (cs, res) =>
        (listCall :: cs, res.map fun entries =>
          { scenario := "multi-intent", route := "router -> data -> support",
            logs := ["Router classified as MULTI", "Data Agent invoked via MCP",
                     "Support Agent generated coordinated response"],
            final := .jarr entries })

/-- Customer id for the `MULTI_COORD` branch: `customer <digits>` in the
lower-cased text, else `int(args.get("customer_id", 0))`. -/
def coordCidRes (query : String) (args : List (String × JVal)) : Except RErr Int :=
  match searchKwNum "customer".data (pyLower query.data) with
  | some n => .ok (Int.ofNat n)
  | none => pyInt ((lookupKV "customer_id" args).getD (.jnum 0))

/-- `"\n\n".join(lines)`. -/
def joinSep (sep : String) : List String → String
  | [] => ""
  | [x] => x
  | x :: xs => x ++ sep ++ joinSep sep xs

/-- Python `str.strip()` (ASCII whitespace). -/
def pyStrip (s : String) : String :=
  String.mk (((s.data.dropWhile isPySpace).reverse.dropWhile isPySpace).reverse)

/-- The up-to-two opening paragraphs of the `MULTI_COORD` reply. -/
def coordLines (cid : Int) (profile : JVal) : Except RErr (List String) :=
  if jTruthy profile then do
    let nm ← getAttrD profile "name" .null
    let st ← getAttrD profile "status" (.jstr "unknown")
    .ok ["Hello " ++ pyStr nm ++ " (Customer ID " ++ toString cid ++ "). "
          ++ "Your account is currently marked as " ++ pyStr st ++ ".",
         "To upgrade, open the account dashboard, choose **Plan & Billing**, "
          ++ "and select the tier you want. Confirm the payment method and submit the upgrade."]
  else if cid ≠ 0 then
    .ok ["I couldn't find customer " ++ toString cid
          ++ " in the records, but here is how you can upgrade:"]
  else
    .ok ["Here's how to upgrade your account:"]

/-- The `MULTI_COORD` branch of `router_call` (lines 183-216). -/
def runCoord (oracle : Oracle) (query : String) (args : List (String × JVal)) :
    List Call × Except RErr Payload :=
  match coordCidRes query args with
  | .error e => ([], .error e)
  | .ok cid =>
    match ((if cid ≠ 0 then
        match doCall oracle (fetchCall cid) with
        | .error e => ([fetchCall cid], .error e)
        | .ok fetched =>
          match getAttrD fetched "customer" .null with
          | .error e => ([fetchCall cid], .error e)
          | .ok profile => ([fetchCall cid], .ok (profile, true))
      else ([], .ok (.null, false))) : List Call × Except RErr (JVal × Bool)) with
    | (cs, .error e) => (cs, .error e)
    | (cs, .ok (profile, dataLog)) =>
      match doCall oracle (supportCall query) with
      | .error e => (cs ++ [supportCall query], .error e)
      | .ok js =>
        match (do
            let textV ← getAttrD js "text" (.jstr "")
            let ls ← coordLines cid profile
            let ls2 ←
              if jTruthy textV then
                match textV with
                | .jstr s => pure (ls ++ [s])
                | _ => Except.error RErr.typeErr
              else pure ls
            pure (pyStrip (joinSep "\n\n" ls2))) with
        | .error e => (cs ++ [supportCall query], .error e)
        | .ok finalS =>
          (cs ++ [supportCall query], .ok {
            scenario := "multi-intent", route := "router -> data -> support",
            logs := ["Router classified as MULTI"]
              ++ (if dataLog then ["Data Agent invoked via MCP"] else [])
              ++ ["Support Agent generated coordinated response"],
            final := .jstr finalS })

/-- Customer id for the `MULTI_UPDATE` branch: `customer <digits>` in the
lower-cased text, else `int(args.get("customer_id", 1))`. -/
def updCidRes (query : String) (args : List (String × JVal)) : Except RErr Int :=
  match searchKwNum "customer".data (pyLower query.data) with
  | some n => .ok (Int.ofNat n)
  | none => pyInt ((lookupKV "customer_id" args).getD (.jnum 1))

/-- New e-mail for the `MULTI_UPDATE` branch: the token captured by
`update my email to ([^\s]+)` on the lower-cased text, else
`args.get("new_email", "new@email.com")`. -/
def updEmail (query : String) (args : List (String × JVal)) : JVal :=
  match searchTokAfter "update my email to ".data (pyLower query.data) with
  | some tok => .jstr (String.mk tok)
  | none => (lookupKV "new_email" args).getD (.jstr "new@email.com")

/-- The confirmation header of the `MULTI_UPDATE` reply. -/
def updHeader (emailV : JVal) : String :=
  "Your email has been successfully updated to " ++ pyStr emailV ++ ".\n"

/-- One numbered ticket block of the `MULTI_UPDATE` reply. -/
def fmtTicket (idx : Nat) (t : JVal) : Except RErr String := do
  let idV ← getAttrD t "id" .null
  let isV ← getAttrD t "issue" .null
  let stV ← getAttrD t "status" .null
  let prV ← getAttrD t "priority" .null
  let caV ← getAttrD t "created_at" .null
  pure (toString idx ++ ". **Ticket ID:** " ++ pyStr idV ++ " \n"
    ++ "   - **Issue:** " ++ pyStr isV ++ " \n"
    ++ "   - **Status:** " ++ pyStr stV ++ " \n"
    ++ "   - **Priority:** " ++ pyStr prV ++ " \n"
    ++ "   - **Created At:** " ++ pyStr caV ++ "\n")

/-- `enumerate(hist, 1)` over the ticket blocks. -/
def fmtTickets (idx : Nat) : List JVal → Except RErr (List String)
  | [] => .ok []
  | t :: ts => do
    let s ← fmtTicket idx t
    let rest ← fmtTickets (idx + 1) ts
    pure (s :: rest)

/-- The `MULTI_UPDATE` branch of `router_call` (lines 220-242). -/
def runUpdate (oracle : Oracle) (query : String) (args : List (String × JVal)) :
    List Call × Except RErr Payload :=
  match updCidRes query args with
  | .error e => ([], .error e)
  | .ok cid =>
    match doCall oracle (updateCall cid (updEmail query args)) with
    | .error e => ([updateCall cid (updEmail query args)], .error e)
    | .ok _ =>
      match doCall oracle (histCall (.jnum cid)) with
      | .error e => ([updateCall cid (updEmail query args), histCall (.jnum cid)], .error e)
      | .ok js =>
        match (do
            let histV ← getAttrD js "tickets" (.jarr [])
            let hist ← pyIter histV
            let blocks ← fmtTickets 1 hist
            pure (joinSep "\n"
              ([updHeader (updEmail query args), "Here is your ticket history:\n"] ++ blocks))) with
        | .error e => ([updateCall cid (updEmail query args), histCall (.jnum cid)], .error e)
        | .ok formatted =>
          ([updateCall cid (updEmail query args), histCall (.jnum cid)], .ok {
            scenario := "multi-intent", route := "router -> data -> support",
            logs := ["Router classified as MULTI", "Data Agent invoked via MCP",
                     "Support Agent generated coordinated response"],
            final := .jstr formatted })

/-- The final fallback of `router_call` (lines 245-247): the support plan
again, with the trace still empty. -/
def runFallback (oracle : Oracle) (query : String) :
    List Call × Except RErr Payload :=
  match doCall oracle (supportCall query) with
  | .error e => ([supportCall query], .error e)
  | .ok js =>
    match getAttrD js "text" (.jstr "") with
    | .error e => ([supportCall query], .error e)
    | .ok textV =>
      ([supportCall query],
        .ok { scenario := "support", route := "router -> support",
              logs := [], final := textV })

/-- Which branch of the `if route == ...` cascade handles a route value. -/
inductive BranchTag : Type where
  | dataB | supportB | openB | coordB | updateB | fallbackB
deriving DecidableEq, Repr

/-- The `if route == ...` cascade of `router_call` as a dispatch function
(the five equality tests are on distinct literals, so the cascade is this
first-match dispatch). -/
def dispatchBranch (route : String) : BranchTag :=
  if route = "DATA" then .dataB
  else if route = "SUPPORT" then .supportB
  else if route = "MULTI_OPEN" then .openB
  else if route = "MULTI_COORD" then .coordB
  else if route = "MULTI_UPDATE" then .updateB
  else .fallbackB

/-- Wrap a branch's payload into the envelope, as each branch's
`return build_response(payload)` does. -/
def wrapEnv (r : List Call × Except RErr Payload) : List Call × Except RErr RouterResp :=
  (r.1, r.2.map fun p => .env (build_response p))

/-- The branch body selected by the `if route == ...` cascade. -/
def runBranch (oracle : Oracle) (query : String) (args : List (String × JVal)) :
    BranchTag → List Call × Except RErr Payload
  | .dataB => runData oracle query args
  | .supportB => runSupport oracle query
  | .openB => runOpen oracle
  | .coordB => runCoord oracle query args
  | .updateB => runUpdate oracle query args
  | .fallbackB => runFallback oracle query

/-- `router_call` from `router_agent.py`: the unknown-tool guard, the
query extraction `str(args.get("text", ""))`, classification, and the
route dispatch (every branch ends in `return build_response(payload)`,
hoisted here into one `wrapEnv`).  The first component records every
collaborator call issued, in order. -/
def router_call (oracle : Oracle) (tool : String)
    (arguments : Option (List (String × JVal))) :
    List Call × Except RErr RouterResp :=
  if tool ≠ "route_task" ∧ tool ≠ "route" then
    ([], .ok (.errObj ("Unknown tool: " ++ tool)))
  else
    let args := arguments.getD []
    let query := pyStr ((lookupKV "text" args).getD (.jstr ""))
    wrapEnv (runBranch oracle query args (dispatchBranch (classify_intent query)))

/-- `router_message` from `router_agent.py`: forward the message content
as the `text` argument of a `route_task` call (the role is ignored). -/
def router_message (oracle : Oracle) (_role content : String) :
    List Call × Except RErr RouterResp :=
  router_call oracle "route_task" (some [("text", .jstr content)])

example : classify_intent "" = "DATA" := by decide
example : classify_intent "I want to upgrade and also a refund" = "MULTI_COORD" := by decide
example : specClassify "I want to upgrade and also a refund" = "MULTI_COORD" := by decide

/-! ## The classifier as the spec's ordered rule list (C1, C10) -/

theorem ruleMatches_open (t : String) :
    ruleMatches "MULTI_OPEN" t
      = (strIn "active customers" t && (strIn "open ticket" t || strIn "open tickets" t)) := rfl

theorem ruleMatches_update (t : String) :
    ruleMatches "MULTI_UPDATE" t
      = (strIn "update my email" t && strIn "ticket history" t) := rfl

theorem ruleMatches_coord (t : String) :
    ruleMatches "MULTI_COORD" t
      = (strIn "upgrade" t || strIn "upgrading my account" t) := rfl

theorem ruleMatches_support (t : String) :
    ruleMatches "SUPPORT" t
      = (strIn "charged twice" t || strIn "refund" t || strIn "cancel" t || strIn "billing" t) := rfl

theorem ruleMatches_data (t : String) :
    ruleMatches "DATA" t
      = (strIn "get customer information" t || strIn "get customer info" t || strIn "customer id" t) := rfl

/-- The common shape of the classifier: a five-way keyword cascade. -/
def cascade5 (r1 r2 r3 r4 r5 : Bool) : String :=
  if r1 then "MULTI_OPEN"
  else if r2 then "MULTI_UPDATE"
  else if r3 then "MULTI_COORD"
  else if r4 then "SUPPORT"
  else if r5 then "DATA"
  else "DATA"

theorem classify_as_cascade (text : String) :
    classify_intent text
      = cascade5 (ruleMatches "MULTI_OPEN" (pyLowerS text))
          (ruleMatches "MULTI_UPDATE" (pyLowerS text))
          (ruleMatches "MULTI_COORD" (pyLowerS text))
          (ruleMatches "SUPPORT" (pyLowerS text))
          (ruleMatches "DATA" (pyLowerS text)) := by
  unfold classify_intent cascade5
  simp only [ruleMatches_open, ruleMatches_update, ruleMatches_coord, ruleMatches_support,
    ruleMatches_data, Bool.and_or_distrib_left]

theorem spec_as_cascade (text : String) :
    specClassify text
      = cascade5 (ruleMatches "MULTI_OPEN" (pyLowerS text))
          (ruleMatches "MULTI_UPDATE" (pyLowerS text))
          (ruleMatches "MULTI_COORD" (pyLowerS text))
          (ruleMatches "SUPPORT" (pyLowerS text))
          (ruleMatches "DATA" (pyLowerS text)) := by
  unfold specClassify priorityOrder cascade5
  cases h1 : ruleMatches "MULTI_OPEN" (pyLowerS text) <;>
  cases h2 : ruleMatches "MULTI_UPDATE" (pyLowerS text) <;>
  cases h3 : ruleMatches "MULTI_COORD" (pyLowerS text) <;>
  cases h4 : ruleMatches "SUPPORT" (pyLowerS text) <;>
  cases h5 : ruleMatches "DATA" (pyLowerS text) <;>
  simp [List.find?, h1, h2, h3, h4, h5]

/-- C1.  For every input text, `classify_intent` returns the intent of the
first matching rule in the fixed priority order MULTI_OPEN, MULTI_UPDATE,
MULTI_COORD, SUPPORT, DATA (case-insensitive substring matching, modelled
by the rules of `ruleMatches` over the lower-cased text); it returns DATA
when the text is empty or matches no rule; and any text containing a
MULTI_OPEN trigger (`"active customers"` together with `"open ticket"` or
`"open tickets"`) and a SUPPORT trigger is classified MULTI_OPEN. -/
theorem c1_classify_priority_order :
    (∀ text, classify_intent text
      = (priorityOrder.find? (fun i => ruleMatches i (pyLowerS text))).getD "DATA") ∧
    classify_intent "" = "DATA" ∧
    (∀ text, priorityOrder.find? (fun i => ruleMatches i (pyLowerS text)) = none →
      classify_intent text = "DATA") ∧
    (∀ text, strIn "active customers" (pyLowerS text) = true →
      (strIn "open ticket" (pyLowerS text) = true ∨ strIn "open tickets" (pyLowerS text) = true) →
      (strIn "charged twice" (pyLowerS text) = true ∨ strIn "refund" (pyLowerS text) = true ∨
        strIn "cancel" (pyLowerS text) = true ∨ strIn "billing" (pyLowerS text) = true) →
      classify_intent text = "MULTI_OPEN") := by
  refine ⟨fun text => ?_, by decide, fun text h => ?_, fun text h1 h2 _h3 => ?_⟩
  · show classify_intent text = specClassify text
    exact (classify_as_cascade text).trans (spec_as_cascade text).symm
  · have heq : classify_intent text = specClassify text :=
      (classify_as_cascade text).trans (spec_as_cascade text).symm
    rw [heq]
    unfold specClassify
    rw [h]
    rfl
  · have hro : ruleMatches "MULTI_OPEN" (pyLowerS text) = true := by
      rw [ruleMatches_open]
      rcases h2 with h2 | h2 <;> simp [h1, h2]
    rw [classify_as_cascade, hro]
    rfl

/-- Witness for C1 at a concrete text carrying both a MULTI_OPEN and a
SUPPORT trigger phrase. -/
theorem c1_classify_priority_order_witness :
    strIn "active customers" (pyLowerS "Active customers with open tickets want a refund") = true ∧
    classify_intent "Active customers with open tickets want a refund" = "MULTI_OPEN" :=
  ⟨by decide,
    c1_classify_priority_order.2.2.2 "Active customers with open tickets want a refund"
      (by decide) (Or.inl (by decide)) (Or.inr (Or.inl (by decide)))⟩

/-- C10.  `classify_intent` always returns one of the five route labels,
so the final fallback branch of `router_call` (the support plan with the
trace still empty, `runFallback`) is unreachable for a recognized tool:
the dispatch on the classified route never selects it. -/
theorem c10_classifier_total_fallback_unreachable :
    (∀ text, classify_intent text = "DATA" ∨ classify_intent text = "SUPPORT" ∨
      classify_intent text = "MULTI_OPEN" ∨ classify_intent text = "MULTI_COORD" ∨
      classify_intent text = "MULTI_UPDATE") ∧
    (∀ text, dispatchBranch (classify_intent text) ≠ BranchTag.fallbackB) := by
  have hlab : ∀ text, classify_intent text = "DATA" ∨ classify_intent text = "SUPPORT" ∨
      classify_intent text = "MULTI_OPEN" ∨ classify_intent text = "MULTI_COORD" ∨
      classify_intent text = "MULTI_UPDATE" := by
    intro text
    rw [classify_as_cascade]
    unfold cascade5
    split
    · exact Or.inr (Or.inr (Or.inl rfl))
    · split
      · exact Or.inr (Or.inr (Or.inr (Or.inr rfl)))
      · split
        · exact Or.inr (Or.inr (Or.inr (Or.inl rfl)))
        · split
          · exact Or.inr (Or.inl rfl)
          · split
            · exact Or.inl rfl
            · exact Or.inl rfl
  refine ⟨hlab, fun text => ?_⟩
  rcases hlab text with h | h | h | h | h <;> rw [h] <;> decide

/-! ## Envelope mirror and entry-point equivalence (C6, C8) -/

theorem wrapEnv_ok_env {r : List Call × Except RErr Payload} {e : Envelope}
    (h : (wrapEnv r).2 = .ok (.env e)) : ∃ p, r.2 = .ok p ∧ e = build_response p := by
  unfold wrapEnv at h
  cases hr : r.2 with
  | error err => rw [hr] at h; simp [Except.map] at h
  | ok p =>
    rw [hr] at h
    simp only [Except.map, Except.ok.injEq, RouterResp.env.injEq] at h
    exact ⟨p, rfl, h.symm⟩

/-- C6.  Every successful envelope returned by `router_call` for a
recognized tool mirrors its four top-level fields identically inside its
`result` field. -/
theorem c6_envelope_result_mirror (oracle : Oracle) (tool : String)
    (arguments : Option (List (String × JVal))) (e : Envelope)
    (h : (router_call oracle tool arguments).2 = .ok (.env e)) :
    e.result.scenario = e.scenario ∧ e.result.route = e.route ∧
    e.result.logs = e.logs ∧ e.result.final = e.final := by
  unfold router_call at h
  split at h
  · simp at h
  · obtain ⟨p, _, rfl⟩ := wrapEnv_ok_env h
    exact ⟨rfl, rfl, rfl, rfl⟩

/-- A support collaborator that always replies with a fixed text. -/
def oracleSupportOk : Oracle := fun _ => .ok (.jobj [("text", .jstr "We can help.")])

/-- The envelope the model produces for a SUPPORT run of `oracleSupportOk`. -/
def envSupportOk : Envelope :=
  build_response { scenario := "support", route := "router -> support",
                   logs := ["Router classified as SUPPORT"], final := .jstr "We can help." }

/-- Witness for C6 on a concrete SUPPORT run. -/
theorem c6_envelope_result_mirror_witness :
    (router_call oracleSupportOk "route_task" (some [("text", JVal.jstr "billing please")])).2
      = .ok (.env envSupportOk) ∧
    envSupportOk.result.scenario = envSupportOk.scenario ∧
    envSupportOk.result.route = envSupportOk.route ∧
    envSupportOk.result.logs = envSupportOk.logs ∧
    envSupportOk.result.final = envSupportOk.final := by
  refine ⟨rfl, ?_⟩
  exact c6_envelope_result_mirror oracleSupportOk "route_task"
    (some [("text", JVal.jstr "billing please")]) envSupportOk rfl

/-- C8.  The message-style entry point with `{role, content}` returns
exactly what the structured entry point returns for
`{tool: "route_task", arguments: {text: content}}`, for every oracle and
content (the role is ignored). -/
theorem c8_message_call_equivalence (oracle : Oracle) (role content : String) :
    router_message oracle role content
      = router_call oracle "route_task" (some [("text", .jstr content)]) := rfl

/-! ## The DATA round trip (C3) -/

/-- A data collaborator whose `get_customer` success body is
`{customer: {id: 5, name: "Ana"}}`, exactly the claim's success result. -/
def oracleAna : Oracle := fun c =>
  if c.tool = "get_customer" then
    .ok (.jobj [("customer", .jobj [("id", .jnum 5), ("name", .jstr "Ana")])])
  else .down

/-- What the DATA branch actually builds from `oracleAna`: the `customer`
field holds the full collaborator result, which still wraps the record
under its own `customer` key. -/
def anaPayload : Payload :=
  { scenario := "data", route := "router -> data",
    logs := ["Router classified as DATA", "Data Agent used MCP tools"],
    final := .jobj [("type", .jstr "get_customer"), ("customer_id", .jnum 5),
      ("customer", .jobj [("customer", .jobj [("id", .jnum 5), ("name", .jstr "Ana")])])] }

/-- Counterexample to C3: the round trip run at the claim's exact inputs
produces a `final` different from the claim's
`{type, customer_id: 5, customer: {id: 5, name: "Ana"}}`. -/
theorem c3_counterexample_roundtrip_shape :
    (router_call oracleAna "route_task"
        (some [("text", JVal.jstr "Get customer information for ID 5")])).2
      = .ok (.env (build_response anaPayload)) ∧
    anaPayload.final
      ≠ .jobj [("type", .jstr "get_customer"), ("customer_id", .jnum 5),
          ("customer", .jobj [("id", .jnum 5), ("name", .jstr "Ana")])] := by
  refine ⟨rfl, ?_⟩
  simp [anaPayload]

/-- C3 amended.  The round trip yields scenario `"data"`, route
`"router -> data"`, and a `final` whose `customer` field is the full
collaborator result `{customer: {id: 5, name: "Ana"}}`. -/
theorem c3_amended_roundtrip :
    (router_call oracleAna "route_task"
        (some [("text", JVal.jstr "Get customer information for ID 5")])).2
      = .ok (.env (build_response anaPayload)) ∧
    anaPayload.scenario = "data" ∧ anaPayload.route = "router -> data" ∧
    anaPayload.final
      = .jobj [("type", .jstr "get_customer"), ("customer_id", .jnum 5),
          ("customer", .jobj [("customer", .jobj [("id", .jnum 5), ("name", .jstr "Ana")])])] :=
  ⟨rfl, rfl, rfl, rfl⟩

/-! ## The customer-id extraction chains (C2) -/

/-- Counterexample to C2: the text `"customer 7 please"` is classified
DATA, contains `customer 7`, matches no `id <digits>` pattern and has no
`customer_id` argument, yet the id used by the DATA route is the default
1, not 7 (the DATA branch never tries the `customer <digits>` pattern). -/
theorem c2_counterexample_data_customer_pattern :
    classify_intent "customer 7 please" = "DATA" ∧
    strIn "customer 7" (pyLowerS "customer 7 please") = true ∧
    searchKwNum "id".data (pyLower "customer 7 please".data) = none ∧
    (router_call (fun _ => Transport.down) "route_task"
        (some [("text", JVal.jstr "customer 7 please")])).1
      = [⟨"data", "get_customer", [("customer_id", JVal.jnum 1)]⟩] ∧
    (1 : Int) ≠ 7 := by
  refine ⟨rfl, rfl, rfl, rfl, by decide⟩

/-- C2 amended.  Each route has its own single extraction pattern, not a
shared `id`-then-`customer` chain: DATA uses `id <digits>` else
`arguments.customer_id` else 1; MULTI_UPDATE and MULTI_COORD use
`customer <digits>` else `arguments.customer_id` else 1 resp. 0; a
MULTI_COORD id of 0 skips the customer lookup, so its first call is the
support reply.  In particular, a DATA text containing `customer 7` with
no `id <digits>` match and no argument id uses the default 1, not 7. -/
theorem c2_amended_route_id_chains (oracle : Oracle) (query : String)
    (args : List (String × JVal)) :
    (∀ cid, dataCidRes query args = .ok cid →
      (runData oracle query args).1.head? = some (fetchCall cid)) ∧
    (∀ cid, updCidRes query args = .ok cid →
      (runUpdate oracle query args).1.head? = some (updateCall cid (updEmail query args))) ∧
    (∀ cid, coordCidRes query args = .ok cid → cid ≠ 0 →
      (runCoord oracle query args).1.head? = some (fetchCall cid)) ∧
    (coordCidRes query args = .ok 0 →
      (runCoord oracle query args).1.head? = some (supportCall query)) ∧
    (∀ n, searchKwNum "id".data (pyLower query.data) = some n →
      dataCidRes query args = .ok (Int.ofNat n)) ∧
    (searchKwNum "id".data (pyLower query.data) = none → lookupKV "customer_id" args = none →
      dataCidRes query args = .ok 1) ∧
    (∀ n, searchKwNum "customer".data (pyLower query.data) = some n →
      updCidRes query args = .ok (Int.ofNat n) ∧ coordCidRes query args = .ok (Int.ofNat n)) ∧
    (searchKwNum "customer".data (pyLower query.data) = none → lookupKV "customer_id" args = none →
      updCidRes query args = .ok 1 ∧ coordCidRes query args = .ok 0) := by
  refine ⟨?_, ?_, ?_, ?_, ?_, ?_, ?_, ?_⟩
  · intro cid h
    unfold runData
    rw [h]
    split
    · rename_i e heq
      exact absurd heq (by simp)
    · rename_i cid' heq
      injection heq with hc
      subst hc
      cases doCall oracle (fetchCall cid) <;> rfl
  · intro cid h
    unfold runUpdate
    rw [h]
    split
    · rename_i e heq
      exact absurd heq (by simp)
    · rename_i cid' heq
      injection heq with hc
      subst hc
      cases doCall oracle (updateCall cid (updEmail query args))
      · rfl
      · simp only []
        cases doCall oracle (histCall (.jnum cid))
        · rfl
        · simp only []
          split <;> rfl
  · intro cid h hne
    unfold runCoord
    rw [h]
    split
    · rename_i e heq
      exact absurd heq (by simp)
    · rename_i cid' heq
      injection heq with hc
      subst hc
      rw [if_pos hne]
      cases hdc : doCall oracle (fetchCall cid)
      · simp only []
        cases hsc : doCall oracle (supportCall query) <;> rfl
      · rename_i fetched
        simp only []
        cases hga : getAttrD fetched "customer" JVal.null
        · simp only []
          cases hsc : doCall oracle (supportCall query) <;> rfl
        · simp only []
          cases hsc : doCall oracle (supportCall query)
          · rfl
          · simp only []
            split <;> rfl
  · intro h
    unfold runCoord
    rw [h]
    split
    · rename_i e heq
      exact absurd heq (by simp)
    · rename_i cid' heq
      injection heq with hc
      subst hc
      rw [if_neg (by simp : ¬ ((0 : Int) ≠ 0))]
      simp only []
      cases hsc : doCall oracle (supportCall query)
      · rfl
      · simp only []
        split <;> rfl
  · intro n h
    unfold dataCidRes
    rw [h]
  · intro h1 h2
    unfold dataCidRes
    rw [h1, h2]
    rfl
  · intro n h
    refine ⟨?_, ?_⟩
    · unfold updCidRes
      rw [h]
    · unfold coordCidRes
      rw [h]
  · intro h1 h2
    refine ⟨?_, ?_⟩
    · unfold updCidRes
      rw [h1, h2]
      rfl
    · unfold coordCidRes
      rw [h1, h2]
      rfl

/-- Witness for C2's amended statement: a DATA text with an `id 42` match,
and an update text whose `customer 3` match drives both MULTI routes. -/
theorem c2_amended_route_id_chains_witness :
    dataCidRes "see id 42 now" [] = .ok 42 ∧
    (runData (fun _ => Transport.down) "see id 42 now" []).1.head? = some (fetchCall 42) ∧
    updCidRes "customer 3 here" [] = .ok 3 ∧
    (runUpdate (fun _ => Transport.down) "customer 3 here" []).1.head?
      = some (updateCall 3 (updEmail "customer 3 here" [])) := by
  refine ⟨rfl, ?_, rfl, ?_⟩
  · exact (c2_amended_route_id_chains (fun _ => Transport.down) "see id 42 now" []).1 42 rfl
  · exact (c2_amended_route_id_chains (fun _ => Transport.down) "customer 3 here" []).2.1 3 rfl

/-! ## The MULTI_OPEN aggregation (C4, C7) -/

/-- `t.get("status", "")` of a ticket object, total form. -/
def ticketStatus (t : JVal) : JVal :=
  match t with
  | .jobj kvs => (lookupKV "status" kvs).getD (.jstr "")
  | _ => .jstr ""

/-- `t.get("issue")` of a ticket object, total form. -/
def ticketIssue (t : JVal) : JVal :=
  match t with
  | .jobj kvs => (lookupKV "issue" kvs).getD .null
  | _ => .null

/-- `cust.get(k)` of a customer object, total form. -/
def custField (c : JVal) (k : String) : JVal :=
  match c with
  | .jobj kvs => (lookupKV k kvs).getD .null
  | _ => .null

/-- The claim's open-ticket rule: status equals `"open"` case-insensitively
(through Python `str(...)`, as the code reads it). -/
def isOpenTicket (t : JVal) : Bool :=
  decide (pyLowerS (pyStr (ticketStatus t)) = "open")

/-- The issues list the code emits: issue fields of the open tickets that
are Python-truthy (so `None` and `""` are both dropped), in ticket order. -/
def specIssues (ot : List JVal) : List JVal :=
  ot.filterMap fun t => if jTruthy (ticketIssue t) then some (ticketIssue t) else none

/-- The per-customer record of the MULTI_OPEN answer, `none` when the
customer has no open ticket (the customer is dropped). -/
def specEntry (cust : JVal) (tix : List JVal) : Option JVal :=
  let ot := tix.filter isOpenTicket
  if ot.isEmpty then none
  else some (.jobj [("name", custField cust "name"), ("email", custField cust "email"),
    ("phone", custField cust "phone"), ("open_tickets", .jnum (Int.ofNat ot.length)),
    ("issues", .jarr (specIssues ot))])

/-- `cust["id"]` of a customer object, total form. -/
def custIdV (c : JVal) : JVal :=
  match c with
  | .jobj kvs => (lookupKV "id" kvs).getD .null
  | _ => .null

/-- The ticket history the oracle serves for a customer value. -/
def specHist (hist : Int → List JVal) (c : JVal) : List JVal :=
  match custIdV c with
  | .jnum n => hist n
  | _ => []

/-- A data collaborator for MULTI_OPEN runs: `list_customers` returns
`cs`, `get_customer_history` returns `hist id`. -/
def mkOpenOracle (cs : List JVal) (hist : Int → List JVal) : Oracle := fun c =>
  if c.tool = "list_customers" then .ok (.jobj [("customers", .jarr cs)])
  else if c.tool = "get_customer_history" then
    match lookupKV "customer_id" c.args with
    | some (.jnum n) => .ok (.jobj [("tickets", .jarr (hist n))])
    | _ => .down
  else .down

theorem collectOpenTix_wf (ts : List JVal) (h : ∀ t ∈ ts, ∃ kvs, t = JVal.jobj kvs) :
    collectOpenTix ts = .ok (ts.filter isOpenTicket) := by
  induction ts with
  | nil => rfl
  | cons t rest ih =>
    obtain ⟨kvs, rfl⟩ := h t (List.mem_cons_self t rest)
    have ihr := ih (fun x hx => h x (List.mem_cons_of_mem _ hx))
    unfold collectOpenTix
    simp only [getAttrD, bind, ihr, isOpenTicket, ticketStatus, List.filter]
    split <;> simp_all [Except.bind]

theorem collectIssues_wf (ts : List JVal) (h : ∀ t ∈ ts, ∃ kvs, t = JVal.jobj kvs) :
    collectIssues ts = .ok (specIssues ts) := by
  induction ts with
  | nil => rfl
  | cons t rest ih =>
    obtain ⟨kvs, rfl⟩ := h t (List.mem_cons_self t rest)
    have ihr := ih (fun x hx => h x (List.mem_cons_of_mem _ hx))
    unfold collectIssues
    simp only [getAttrD, bind, ihr, specIssues, ticketIssue, List.filterMap]
    split <;> rename_i heq <;> simp at heq
    · simp [Except.bind, heq]
    · obtain ⟨h1, h2⟩ := heq
      subst h2
      simp [Except.bind, h1]

theorem openEntry_wf (kvs : List (String × JVal)) (ot : List JVal)
    (hot : ∀ t ∈ ot, ∃ k, t = JVal.jobj k) :
    openEntry (.jobj kvs) ot
      = .ok (.jobj [("name", custField (.jobj kvs) "name"),
          ("email", custField (.jobj kvs) "email"),
          ("phone", custField (.jobj kvs) "phone"),
          ("open_tickets", .jnum (Int.ofNat ot.length)),
          ("issues", .jarr (specIssues ot))]) := by
  unfold openEntry
  simp [getAttrD, bind, Except.bind, collectIssues_wf ot hot, custField]

theorem openLoop_mkOpenOracle (cs : List JVal) (hist : Int → List JVal)
    (hwfT : ∀ n, ∀ t ∈ hist n, ∃ kvs, t = JVal.jobj kvs)
    (l : List JVal)
    (hwfC : ∀ c ∈ l, ∃ kvs n, c = JVal.jobj kvs ∧ lookupKV "id" kvs = some (.jnum n)) :
    openLoop (mkOpenOracle cs hist) l
      = (l.map (fun c => histCall (custIdV c)),
         .ok (l.filterMap (fun c => specEntry c (specHist hist c)))) := by
  induction l with
  | nil => rfl
  | cons c rest ih =>
    obtain ⟨kvs, n, rfl, hid⟩ := hwfC c (List.mem_cons_self c rest)
    have ihr := ih (fun x hx => hwfC x (List.mem_cons_of_mem _ hx))
    have hcid : custIdV (JVal.jobj kvs) = .jnum n := by simp [custIdV, hid]
    have hgi : getItem (JVal.jobj kvs) "id" = .ok (.jnum n) := by simp [getItem, hid]
    have hdc : doCall (mkOpenOracle cs hist) (histCall (.jnum n))
        = .ok (.jobj [("tickets", .jarr (hist n))]) := rfl
    have hton : ∀ t ∈ (hist n).filter isOpenTicket, ∃ k, t = JVal.jobj k :=
      fun t ht => hwfT n t (List.mem_of_mem_filter ht)
    have hif : (if ((hist n).filter isOpenTicket).isEmpty = true then Except.ok none
        else Except.map some (openEntry (JVal.jobj kvs) ((hist n).filter isOpenTicket)))
        = Except.ok (specEntry (JVal.jobj kvs) (hist n)) := by
      by_cases hfe : ((hist n).filter isOpenTicket).isEmpty
      · simp [hfe, specEntry]
      · rw [openEntry_wf kvs _ hton]
        simp [hfe, specEntry, Except.map]
    have hsh : specHist hist (JVal.jobj kvs) = hist n := by simp [specHist, hcid]
    unfold openLoop
    rw [hgi]
    simp only []
    rw [hdc]
    simp only [getAttrD, pyIter, bind, Except.bind, lookupKV, reduceIte, Option.getD,
      collectOpenTix_wf (hist n) (hwfT n), ihr]
    rw [hif]
    simp only [List.map_cons, List.filterMap_cons, hcid, Except.map]
    rw [hsh]
    cases specEntry (JVal.jobj kvs) (hist n) <;> rfl

/-- C4 amended.  For a MULTI_OPEN run over the customers returned by
`list_customers` and their ticket histories: a ticket counts as open iff
its status equals `"open"` case-insensitively; customers with zero open
tickets are dropped; each kept customer yields its
`{name, email, phone, open_tickets, issues}` record where `issues` keeps
the *Python-truthy* issue fields of the open tickets in ticket order
(`None` and the empty string are both dropped, not only `None`); and the
final list preserves the `list_customers` order. -/
theorem c4_amended_multi_open_aggregation (cs : List JVal) (hist : Int → List JVal)
    (hwfC : ∀ c ∈ cs, ∃ kvs n, c = JVal.jobj kvs ∧ lookupKV "id" kvs = some (.jnum n))
    (hwfT : ∀ n, ∀ t ∈ hist n, ∃ kvs, t = JVal.jobj kvs) :
    runOpen (mkOpenOracle cs hist)
      = (listCall :: cs.map (fun c => histCall (custIdV c)),
         .ok { scenario := "multi-intent", route := "router -> data -> support",
               logs := ["Router classified as MULTI", "Data Agent invoked via MCP",
                        "Support Agent generated coordinated response"],
               final := .jarr (cs.filterMap (fun c => specEntry c (specHist hist c))) }) := by
  have hlc : doCall (mkOpenOracle cs hist) listCall
      = .ok (.jobj [("customers", .jarr cs)]) := rfl
  unfold runOpen
  rw [hlc]
  simp only [getAttrD, pyIter, bind, Except.bind, lookupKV, reduceIte, Option.getD]
  rw [openLoop_mkOpenOracle cs hist hwfT cs hwfC]
  simp [Except.map]

/-- One customer whose single open ticket has an empty-string issue. -/
def csEmptyIssue : List JVal :=
  [JVal.jobj [("id", JVal.jnum 1), ("name", JVal.jstr "A"),
    ("email", JVal.jstr "a@x"), ("phone", JVal.jstr "1")]]

/-- History for `csEmptyIssue`: one open ticket with `issue: ""`. -/
def histEmptyIssue : Int → List JVal := fun n =>
  if n = 1 then [JVal.jobj [("status", JVal.jstr "open"), ("issue", JVal.jstr "")]] else []

/-- Counterexample to C4: an open ticket with the non-null issue `""` is
dropped from `issues` (Python truthiness), where the claim's "non-null
issue fields" would keep it. -/
theorem c4_counterexample_empty_string_issue :
    (runOpen (mkOpenOracle csEmptyIssue histEmptyIssue)).2
      = .ok { scenario := "multi-intent", route := "router -> data -> support",
              logs := ["Router classified as MULTI", "Data Agent invoked via MCP",
                       "Support Agent generated coordinated response"],
              final := .jarr [.jobj [("name", .jstr "A"), ("email", .jstr "a@x"),
                ("phone", .jstr "1"), ("open_tickets", .jnum 1), ("issues", .jarr [])]] } ∧
    isOpenTicket (JVal.jobj [("status", JVal.jstr "open"), ("issue", JVal.jstr "")]) = true ∧
    ticketIssue (JVal.jobj [("status", JVal.jstr "open"), ("issue", JVal.jstr "")]) ≠ JVal.null ∧
    JVal.jarr ([] : List JVal) ≠ JVal.jarr [JVal.jstr ""] :=
  ⟨rfl, rfl, by simp [ticketIssue, lookupKV], by simp⟩

/-- The spec's own MULTI_OPEN filtering instance: customer 1 has one open
ticket, customer 2 one closed ticket. -/
def csTwo : List JVal :=
  [JVal.jobj [("id", JVal.jnum 1), ("name", JVal.jstr "Ann")],
   JVal.jobj [("id", JVal.jnum 2), ("name", JVal.jstr "Bob")]]

/-- Histories for `csTwo`. -/
def histTwo : Int → List JVal := fun n =>
  if n = 1 then [JVal.jobj [("status", JVal.jstr "open"), ("issue", JVal.jstr "login fails")]]
  else if n = 2 then [JVal.jobj [("status", JVal.jstr "closed"), ("issue", JVal.jstr "old")]]
  else []

/-- Witness for C4: only customer 1 survives, with `open_tickets: 1`. -/
theorem c4_amended_multi_open_aggregation_witness :
    (runOpen (mkOpenOracle csTwo histTwo)).2
      = .ok { scenario := "multi-intent", route := "router -> data -> support",
              logs := ["Router classified as MULTI", "Data Agent invoked via MCP",
                       "Support Agent generated coordinated response"],
              final := .jarr [.jobj [("name", .jstr "Ann"), ("email", .null),
                ("phone", .null), ("open_tickets", .jnum 1),
                ("issues", .jarr [.jstr "login fails"])]] } := by
  have h := c4_amended_multi_open_aggregation csTwo histTwo
    (by
      intro c hc
      rcases List.mem_cons.mp hc with rfl | hc2
      · exact ⟨_, 1, rfl, rfl⟩
      · rcases List.mem_cons.mp hc2 with rfl | hc3
        · exact ⟨_, 2, rfl, rfl⟩
        · cases hc3)
    (by
      intro n t ht
      unfold histTwo at ht
      split at ht
      · rw [List.mem_singleton.mp ht]
        exact ⟨_, rfl⟩
      · split at ht
        · rw [List.mem_singleton.mp ht]
          exact ⟨_, rfl⟩
        · cases ht)
  rw [h]
  rfl

/-- Counterexample to C7: a MULTI_OPEN run over zero customers completes
one collaborator step but appends three trace lines, so the number of
trace lines is not the number of completed steps. -/
theorem c7_counterexample_trace_not_per_step :
    (runOpen (mkOpenOracle [] (fun _ => []))).1.length = 1 ∧
    (runOpen (mkOpenOracle [] (fun _ => []))).2
      = .ok { scenario := "multi-intent", route := "router -> data -> support",
              logs := ["Router classified as MULTI", "Data Agent invoked via MCP",
                       "Support Agent generated coordinated response"],
              final := .jarr [] } ∧
    (3 : Nat) ≠ 1 :=
  ⟨rfl, rfl, by decide⟩

/-- C7 amended.  The trace is stage-level and route-fixed, not per Step:
every successful MULTI_OPEN run carries exactly the same three lines in
the same order, independent of the number of listed customers, while the
run performs `1 + N` collaborator calls. -/
theorem c7_amended_stage_level_trace :
    (∀ oracle p, (runOpen oracle).2 = .ok p →
      p.logs = ["Router classified as MULTI", "Data Agent invoked via MCP",
                "Support Agent generated coordinated response"]) ∧
    (∀ cs hist,
      (∀ c ∈ cs, ∃ kvs n, c = JVal.jobj kvs ∧ lookupKV "id" kvs = some (.jnum n)) →
      (∀ n, ∀ t ∈ hist n, ∃ kvs, t = JVal.jobj kvs) →
      (runOpen (mkOpenOracle cs hist)).1.length = 1 + cs.length) := by
  constructor
  · intro oracle p h
    unfold runOpen at h
    split at h
    · simp at h
    · split at h
      · simp at h
      · rename_i customers heq2
        rcases hol : openLoop oracle customers with ⟨cs2, res⟩
        rw [hol] at h
        cases res with
        | error e => simp [Except.map] at h
        | ok entries =>
          simp only [Except.map, Except.ok.injEq] at h
          rw [← h]
  · intro cs hist hwfC hwfT
    have hlc : doCall (mkOpenOracle cs hist) listCall
        = .ok (.jobj [("customers", .jarr cs)]) := rfl
    unfold runOpen
    rw [hlc]
    simp only [getAttrD, pyIter, bind, Except.bind, lookupKV, reduceIte, Option.getD]
    rw [openLoop_mkOpenOracle cs hist hwfT cs hwfC]
    simp [Nat.add_comm]

/-- Witness for C7's amended statement on the zero-customer run. -/
theorem c7_amended_stage_level_trace_witness :
    (runOpen (mkOpenOracle [] (fun _ => []))).1.length = 1 + 0 ∧
    ∃ p, (runOpen (mkOpenOracle [] (fun _ => []))).2 = .ok p ∧
      p.logs = ["Router classified as MULTI", "Data Agent invoked via MCP",
                "Support Agent generated coordinated response"] := by
  refine ⟨?_, ?_⟩
  · exact c7_amended_stage_level_trace.2 [] (fun _ => [])
      (by intro c hc; cases hc) (by intro n t ht; cases ht)
  · exact ⟨_, rfl, c7_amended_stage_level_trace.1 (mkOpenOracle [] (fun _ => [])) _ rfl⟩

/-! ## The MULTI_UPDATE e-mail extraction (C9) -/

theorem lowerChar_of_ne (c : Char) (h1 : c ≠ 'A') (h2 : c ≠ 'B') (h3 : c ≠ 'C') (h4 : c ≠ 'D') (h5 : c ≠ 'E') (h6 : c ≠ 'F') (h7 : c ≠ 'G') (h8 : c ≠ 'H') (h9 : c ≠ 'I') (h10 : c ≠ 'J') (h11 : c ≠ 'K') (h12 : c ≠ 'L') (h13 : c ≠ 'M') (h14 : c ≠ 'N') (h15 : c ≠ 'O') (h16 : c ≠ 'P') (h17 : c ≠ 'Q') (h18 : c ≠ 'R') (h19 : c ≠ 'S') (h20 : c ≠ 'T') (h21 : c ≠ 'U') (h22 : c ≠ 'V') (h23 : c ≠ 'W') (h24 : c ≠ 'X') (h25 : c ≠ 'Y') (h26 : c ≠ 'Z') :
    lowerChar c = c := by
  unfold lowerChar
  rw [if_neg h1, if_neg h2, if_neg h3, if_neg h4, if_neg h5, if_neg h6, if_neg h7, if_neg h8, if_neg h9, if_neg h10, if_neg h11, if_neg h12, if_neg h13, if_neg h14, if_neg h15, if_neg h16, if_neg h17, if_neg h18, if_neg h19, if_neg h20, if_neg h21, if_neg h22, if_neg h23, if_neg h24, if_neg h25, if_neg h26]

theorem lowerChar_space (c : Char) : isPySpace (lowerChar c) = isPySpace c := by
  by_cases h1 : c = 'A'
  · subst h1; rfl
  by_cases h2 : c = 'B'
  · subst h2; rfl
  by_cases h3 : c = 'C'
  · subst h3; rfl
  by_cases h4 : c = 'D'
  · subst h4; rfl
  by_cases h5 : c = 'E'
  · subst h5; rfl
  by_cases h6 : c = 'F'
  · subst h6; rfl
  by_cases h7 : c = 'G'
  · subst h7; rfl
  by_cases h8 : c = 'H'
  · subst h8; rfl
  by_cases h9 : c = 'I'
  · subst h9; rfl
  by_cases h10 : c = 'J'
  · subst h10; rfl
  by_cases h11 : c = 'K'
  · subst h11; rfl
  by_cases h12 : c = 'L'
  · subst h12; rfl
  by_cases h13 : c = 'M'
  · subst h13; rfl
  by_cases h14 : c = 'N'
  · subst h14; rfl
  by_cases h15 : c = 'O'
  · subst h15; rfl
  by_cases h16 : c = 'P'
  · subst h16; rfl
  by_cases h17 : c = 'Q'
  · subst h17; rfl
  by_cases h18 : c = 'R'
  · subst h18; rfl
  by_cases h19 : c = 'S'
  · subst h19; rfl
  by_cases h20 : c = 'T'
  · subst h20; rfl
  by_cases h21 : c = 'U'
  · subst h21; rfl
  by_cases h22 : c = 'V'
  · subst h22; rfl
  by_cases h23 : c = 'W'
  · subst h23; rfl
  by_cases h24 : c = 'X'
  · subst h24; rfl
  by_cases h25 : c = 'Y'
  · subst h25; rfl
  by_cases h26 : c = 'Z'
  · subst h26; rfl
  rw [lowerChar_of_ne c h1 h2 h3 h4 h5 h6 h7 h8 h9 h10 h11 h12 h13 h14 h15 h16 h17 h18 h19 h20 h21 h22 h23 h24 h25 h26]

theorem lowerChar_idem (c : Char) : lowerChar (lowerChar c) = lowerChar c := by
  by_cases h1 : c = 'A'
  · subst h1; rfl
  by_cases h2 : c = 'B'
  · subst h2; rfl
  by_cases h3 : c = 'C'
  · subst h3; rfl
  by_cases h4 : c = 'D'
  · subst h4; rfl
  by_cases h5 : c = 'E'
  · subst h5; rfl
  by_cases h6 : c = 'F'
  · subst h6; rfl
  by_cases h7 : c = 'G'
  · subst h7; rfl
  by_cases h8 : c = 'H'
  · subst h8; rfl
  by_cases h9 : c = 'I'
  · subst h9; rfl
  by_cases h10 : c = 'J'
  · subst h10; rfl
  by_cases h11 : c = 'K'
  · subst h11; rfl
  by_cases h12 : c = 'L'
  · subst h12; rfl
  by_cases h13 : c = 'M'
  · subst h13; rfl
  by_cases h14 : c = 'N'
  · subst h14; rfl
  by_cases h15 : c = 'O'
  · subst h15; rfl
  by_cases h16 : c = 'P'
  · subst h16; rfl
  by_cases h17 : c = 'Q'
  · subst h17; rfl
  by_cases h18 : c = 'R'
  · subst h18; rfl
  by_cases h19 : c = 'S'
  · subst h19; rfl
  by_cases h20 : c = 'T'
  · subst h20; rfl
  by_cases h21 : c = 'U'
  · subst h21; rfl
  by_cases h22 : c = 'V'
  · subst h22; rfl
  by_cases h23 : c = 'W'
  · subst h23; rfl
  by_cases h24 : c = 'X'
  · subst h24; rfl
  by_cases h25 : c = 'Y'
  · subst h25; rfl
  by_cases h26 : c = 'Z'
  · subst h26; rfl
  rw [lowerChar_of_ne c h1 h2 h3 h4 h5 h6 h7 h8 h9 h10 h11 h12 h13 h14 h15 h16 h17 h18 h19 h20 h21 h22 h23 h24 h25 h26, lowerChar_of_ne c h1 h2 h3 h4 h5 h6 h7 h8 h9 h10 h11 h12 h13 h14 h15 h16 h17 h18 h19 h20 h21 h22 h23 h24 h25 h26]

theorem searchTokAfter_exists_drop (kw l t : List Char)
    (h : searchTokAfter kw l = some t) :
    ∃ i, tokAfterAt kw (l.drop i) = some t := by
  induction l with
  | nil => exact ⟨0, h⟩
  | cons c cs ih =>
    unfold searchTokAfter at h
    split at h
    · rename_i t' hta
      injection h with h'
      subst h'
      exact ⟨0, hta⟩
    · obtain ⟨i, hi⟩ := ih h
      exact ⟨i + 1, hi⟩

theorem tokAfterAt_eq (kw m t : List Char) (h : tokAfterAt kw m = some t) :
    t = (m.drop kw.length).takeWhile (fun c => !isPySpace c) ∧ t ≠ [] := by
  unfold tokAfterAt at h
  split at h
  · split at h
    · cases h
    · rename_i hne
      injection h with h'
      subst h'
      refine ⟨rfl, ?_⟩
      intro hnil
      rw [hnil] at hne
      exact hne rfl
  · cases h

theorem lowerChar_space_comp :
    ((fun c => !isPySpace c) ∘ lowerChar) = fun c => !isPySpace c := by
  funext c
  simp [Function.comp, lowerChar_space]

theorem pyLower_idem (l : List Char) : pyLower (pyLower l) = pyLower l := by
  unfold pyLower
  rw [List.map_map]
  congr 1
  funext c
  simp [Function.comp, lowerChar_idem]

theorem searchTok_lower_segment (kw q t : List Char)
    (h : searchTokAfter kw (pyLower q) = some t) :
    (∃ i, t = pyLower ((q.drop i).takeWhile (fun c => !isPySpace c))) ∧
    pyLower t = t ∧ t ≠ [] := by
  obtain ⟨i, hi⟩ := searchTokAfter_exists_drop kw (pyLower q) t h
  obtain ⟨heq, hne⟩ := tokAfterAt_eq kw _ t hi
  have hseg : t = pyLower ((q.drop (i + kw.length)).takeWhile (fun c => !isPySpace c)) := by
    rw [heq]
    unfold pyLower
    rw [← List.map_drop, ← List.map_drop, List.drop_drop, List.takeWhile_map,
      lowerChar_space_comp]
  refine ⟨⟨i + kw.length, hseg⟩, ?_, hne⟩
  rw [hseg, pyLower_idem]

theorem runUpdate_first_call (oracle : Oracle) (query : String) (args : List (String × JVal))
    (cid : Int) (h : updCidRes query args = .ok cid) :
    (runUpdate oracle query args).1.head? = some (updateCall cid (updEmail query args)) := by
  unfold runUpdate
  rw [h]
  split
  · rename_i e heq
    exact absurd heq (by simp)
  · rename_i cid' heq
    injection heq with hc
    subst hc
    cases doCall oracle (updateCall cid (updEmail query args))
    · rfl
    · simp only []
      cases doCall oracle (histCall (.jnum cid))
      · rfl
      · simp only []
        split <;> rfl

theorem runUpdate_ok_final (oracle : Oracle) (query : String) (args : List (String × JVal))
    (p : Payload) (h : (runUpdate oracle query args).2 = .ok p) :
    ∃ blocks, p.final = .jstr (joinSep "\n"
      ([updHeader (updEmail query args), "Here is your ticket history:\n"] ++ blocks)) := by
  unfold runUpdate at h
  split at h
  · simp at h
  · split at h
    · simp at h
    · split at h
      · simp at h
      · split at h
        · simp at h
        · rename_i formatted heq
          simp only [Except.ok.injEq] at h
          subst h
          -- heq : the do-chain = .ok formatted
          cases hga : getAttrD _ "tickets" (.jarr []) with
          | error e => rw [hga] at heq; simp [bind, Except.bind] at heq
          | ok histV =>
            rw [hga] at heq
            simp only [bind, Except.bind] at heq
            cases hpi : pyIter histV with
            | error e => rw [hpi] at heq; simp at heq
            | ok hist =>
              rw [hpi] at heq
              simp only [] at heq
              cases hfb : fmtTickets 1 hist with
              | error e => rw [hfb] at heq; simp at heq
              | ok blocks =>
                rw [hfb] at heq
                simp only [pure, Except.pure, Except.ok.injEq] at heq
                exact ⟨blocks, by rw [← heq]⟩


/-- C9.  For a MULTI_UPDATE request whose (lower-cased) text matches
`update my email to <token>`: the e-mail used is the captured token; it
is the argument of the `update_customer` call and is printed in the
confirmation header of the final reply; it is fully lower-case; and it is
the character-wise lower-casing of the token as it appeared in the
original request (a maximal non-whitespace run). -/
theorem c9_update_email_lowercased (oracle : Oracle) (query : String)
    (args : List (String × JVal)) (tok : List Char)
    (_hcl : classify_intent query = "MULTI_UPDATE")
    (htok : searchTokAfter "update my email to ".data (pyLower query.data) = some tok) :
    updEmail query args = .jstr (String.mk tok) ∧
    (∀ cid, updCidRes query args = .ok cid →
      (runUpdate oracle query args).1.head?
        = some (updateCall cid (.jstr (String.mk tok)))) ∧
    (∀ p, (runUpdate oracle query args).2 = .ok p →
      ∃ rest, p.final = .jstr (("Your email has been successfully updated to "
        ++ String.mk tok ++ ".\n") ++ "\n" ++ rest)) ∧
    pyLower tok = tok ∧
    (∃ i, tok = pyLower ((query.data.drop i).takeWhile (fun c => !isPySpace c))) := by
  have hue : updEmail query args = .jstr (String.mk tok) := by
    unfold updEmail
    rw [htok]
  obtain ⟨⟨i, hseg⟩, hidem, hne⟩ := searchTok_lower_segment _ _ _ htok
  refine ⟨hue, ?_, ?_, hidem, ⟨i, hseg⟩⟩
  · intro cid h
    rw [← hue]
    exact runUpdate_first_call oracle query args cid h
  · intro p hp
    obtain ⟨blocks, hb⟩ := runUpdate_ok_final oracle query args p hp
    refine ⟨joinSep "\n" ("Here is your ticket history:\n" :: blocks), ?_⟩
    rw [hb, hue]
    rfl

/-- The MULTI_UPDATE collaborator: the update succeeds, the history is
empty. -/
def oracleUpd : Oracle := fun c =>
  if c.tool = "update_customer" then .ok (.jobj [("updated", .jbool true)])
  else if c.tool = "get_customer_history" then .ok (.jobj [("tickets", .jarr [])])
  else .down

/-- The witness request text for C9, with a mixed-case e-mail. -/
def qUpd : String := "I'm customer 3, update my email to ABC@Mail.COM and show my ticket history"

/-- Witness for C9: the mixed-case e-mail `ABC@Mail.COM` reaches
`update_customer` as `abc@mail.com`. -/
theorem c9_update_email_lowercased_witness :
    classify_intent qUpd = "MULTI_UPDATE" ∧
    searchTokAfter "update my email to ".data (pyLower qUpd.data) = some "abc@mail.com".data ∧
    (runUpdate oracleUpd qUpd []).1.head? = some (updateCall 3 (.jstr "abc@mail.com")) ∧
    pyLower "abc@mail.com".data = "abc@mail.com".data := by
  refine ⟨rfl, rfl, ?_, rfl⟩
  have h := c9_update_email_lowercased oracleUpd qUpd [] "abc@mail.com".data rfl rfl
  exact h.2.1 3 rfl

/-! ## Abort on collaborator failure (C5) -/

/-- The abort discipline of a run result: every attempted collaborator
call except possibly the last succeeded (a failing call is never followed
by another), and a successful outcome implies every attempted call
succeeded (contrapositive: a failing call forces the error outcome, so no
envelope or partial result is returned). -/
def abortSpec (oracle : Oracle) {α : Type} (r : List Call × Except RErr α) : Prop :=
  (∀ c ∈ r.1.dropLast, stepOK oracle c = true) ∧
  (∀ v, r.2 = .ok v → ∀ c ∈ r.1, stepOK oracle c = true)

theorem stepOK_of_ok {oracle : Oracle} {c : Call} {js : JVal}
    (h : doCall oracle c = .ok js) : stepOK oracle c = true := by
  unfold stepOK
  rw [h]

theorem abortSpec_nil {α : Type} (oracle : Oracle) (res : Except RErr α) :
    abortSpec oracle (([] : List Call), res) := by
  refine ⟨by simp, ?_⟩
  intro v _ c hc
  cases hc

theorem abortSpec_single_error {α : Type} (oracle : Oracle) (c : Call) (e : RErr) :
    abortSpec oracle ([c], (.error e : Except RErr α)) := by
  refine ⟨by simp, ?_⟩
  intro v hv
  exact absurd hv (by simp)

theorem abortSpec_single_ok {α : Type} (oracle : Oracle) (c : Call) (v : α)
    (h : stepOK oracle c = true) : abortSpec oracle ([c], .ok v) := by
  refine ⟨by simp, ?_⟩
  intro w _ d hd
  rw [List.mem_singleton] at hd
  subst hd
  exact h

theorem abortSpec_pair_error {α : Type} (oracle : Oracle) (c1 c2 : Call) (e : RErr)
    (h1 : stepOK oracle c1 = true) :
    abortSpec oracle ([c1, c2], (.error e : Except RErr α)) := by
  constructor
  · intro c hc
    simp [List.dropLast] at hc
    subst hc
    exact h1
  · intro v hv
    exact absurd hv (by simp)

theorem abortSpec_pair_ok {α : Type} (oracle : Oracle) (c1 c2 : Call) (v : α)
    (h1 : stepOK oracle c1 = true) (h2 : stepOK oracle c2 = true) :
    abortSpec oracle ([c1, c2], .ok v) := by
  refine ⟨?_, ?_⟩
  · intro c hc
    simp [List.dropLast] at hc
    subst hc
    exact h1
  · intro w _ d hd
    rcases List.mem_cons.mp hd with rfl | hd2
    · exact h1
    · rw [List.mem_singleton] at hd2
      subst hd2
      exact h2

theorem abortSpec_cons_map {α β : Type} (oracle : Oracle) (c0 : Call)
    (h0 : stepOK oracle c0 = true) (r : List Call × Except RErr α)
    (hr : abortSpec oracle r) (f : α → β) :
    abortSpec oracle (c0 :: r.1, r.2.map f) := by
  constructor
  · intro c hc
    rcases hl : r.1 with _ | ⟨hd, tl⟩
    · rw [hl] at hc
      simp at hc
    · rw [hl] at hc
      rcases List.mem_cons.mp hc with rfl | hmem
      · exact h0
      · exact hr.1 c (by rw [hl]; exact hmem)
  · intro v hv c hc
    cases hres : r.2 with
    | error e =>
      rw [hres] at hv
      exact absurd hv (by simp [Except.map])
    | ok w =>
      rcases List.mem_cons.mp hc with rfl | hmem
      · exact h0
      · exact hr.2 w hres c hmem

theorem openLoop_abortSpec (oracle : Oracle) (l : List JVal) :
    abortSpec oracle (openLoop oracle l) := by
  induction l with
  | nil => exact abortSpec_nil oracle _
  | cons c rest ih =>
    unfold openLoop
    split
    · exact abortSpec_nil oracle _
    · split
      · exact abortSpec_single_error oracle _ _
      · rename_i hist hhist
        split
        · exact abortSpec_single_error oracle _ _
        · split
          · exact abortSpec_single_error oracle _ _
          · rcases hol : openLoop oracle rest with ⟨cs, res⟩
            exact abortSpec_cons_map oracle _ (stepOK_of_ok hhist) (cs, res) (hol ▸ ih) _

theorem runData_abortSpec (oracle : Oracle) (query : String) (args : List (String × JVal)) :
    abortSpec oracle (runData oracle query args) := by
  unfold runData
  split
  · exact abortSpec_nil oracle _
  · split
    · exact abortSpec_single_error oracle _ _
    · rename_i result heq
      exact abortSpec_single_ok oracle _ _ (stepOK_of_ok heq)

theorem runSupport_abortSpec (oracle : Oracle) (query : String) :
    abortSpec oracle (runSupport oracle query) := by
  unfold runSupport
  split
  · exact abortSpec_single_error oracle _ _
  · rename_i js hjs
    split
    · exact abortSpec_single_error oracle _ _
    · exact abortSpec_single_ok oracle _ _ (stepOK_of_ok hjs)

theorem runFallback_abortSpec (oracle : Oracle) (query : String) :
    abortSpec oracle (runFallback oracle query) := by
  unfold runFallback
  split
  · exact abortSpec_single_error oracle _ _
  · rename_i js hjs
    split
    · exact abortSpec_single_error oracle _ _
    · exact abortSpec_single_ok oracle _ _ (stepOK_of_ok hjs)

theorem runOpen_abortSpec (oracle : Oracle) :
    abortSpec oracle (runOpen oracle) := by
  unfold runOpen
  split
  · exact abortSpec_single_error oracle _ _
  · rename_i js hjs
    split
    · exact abortSpec_single_error oracle _ _
    · rename_i customers hcust
      rcases hol : openLoop oracle customers with ⟨cs, res⟩
      exact abortSpec_cons_map oracle _ (stepOK_of_ok hjs) (cs, res)
        (hol ▸ openLoop_abortSpec oracle customers) _

theorem runUpdate_abortSpec (oracle : Oracle) (query : String) (args : List (String × JVal)) :
    abortSpec oracle (runUpdate oracle query args) := by
  unfold runUpdate
  split
  · exact abortSpec_nil oracle _
  · split
    · exact abortSpec_single_error oracle _ _
    · rename_i r1 h1
      split
      · exact abortSpec_pair_error oracle _ _ _ (stepOK_of_ok h1)
      · rename_i r2 h2
        split
        · exact abortSpec_pair_error oracle _ _ _ (stepOK_of_ok h1)
        · exact abortSpec_pair_ok oracle _ _ _ (stepOK_of_ok h1) (stepOK_of_ok h2)

theorem runCoord_abortSpec (oracle : Oracle) (query : String) (args : List (String × JVal)) :
    abortSpec oracle (runCoord oracle query args) := by
  unfold runCoord
  split
  · exact abortSpec_nil oracle _
  · rename_i cid hcid
    by_cases hne : cid ≠ 0
    · rw [if_pos hne]
      cases hf : doCall oracle (fetchCall cid)
      · simp only []
        exact abortSpec_single_error oracle _ _
      · rename_i fetched
        simp only []
        cases hga : getAttrD fetched "customer" JVal.null
        · simp only []
          exact abortSpec_single_error oracle _ _
        · simp only []
          cases hsc : doCall oracle (supportCall query)
          · simp only []
            exact abortSpec_pair_error oracle _ _ _ (stepOK_of_ok hf)
          · simp only []
            split
            · exact abortSpec_pair_error oracle _ _ _ (stepOK_of_ok hf)
            · exact abortSpec_pair_ok oracle _ _ _ (stepOK_of_ok hf) (stepOK_of_ok hsc)
    · rw [if_neg hne]
      simp only []
      cases hsc : doCall oracle (supportCall query)
      · simp only []
        exact abortSpec_single_error oracle _ _
      · simp only []
        split
        · exact abortSpec_single_error oracle _ _
        · exact abortSpec_single_ok oracle _ _ (stepOK_of_ok hsc)

theorem runBranch_abortSpec (oracle : Oracle) (query : String)
    (args : List (String × JVal)) (tag : BranchTag) :
    abortSpec oracle (runBranch oracle query args tag) := by
  cases tag with
  | dataB => exact runData_abortSpec oracle query args
  | supportB => exact runSupport_abortSpec oracle query
  | openB => exact runOpen_abortSpec oracle
  | coordB => exact runCoord_abortSpec oracle query args
  | updateB => exact runUpdate_abortSpec oracle query args
  | fallbackB => exact runFallback_abortSpec oracle query

theorem wrapEnv_abortSpec (oracle : Oracle) (r : List Call × Except RErr Payload)
    (hr : abortSpec oracle r) : abortSpec oracle (wrapEnv r) := by
  constructor
  · exact hr.1
  · intro resp hresp c hc
    cases hres : r.2 with
    | error e =>
      unfold wrapEnv at hresp
      rw [hres] at hresp
      exact absurd hresp (by simp [Except.map])
    | ok p =>
      exact hr.2 p hres c hc

/-- C5.  If any collaborator call of a plan fails (transport down, error
shape, or a local type error while reading its response), `router_call`
aborts there: a failing call is the last call attempted (no remaining
steps execute), and an `.ok` outcome - envelope or structured
unknown-tool object - is only returned when every attempted call
succeeded, so a failure yields the `.error` outcome, which models the
unhandled Python exception (no envelope, no partial result, no trace). -/
theorem c5_collaborator_failure_aborts (oracle : Oracle) (tool : String)
    (arguments : Option (List (String × JVal))) :
    (∀ c ∈ (router_call oracle tool arguments).1.dropLast, stepOK oracle c = true) ∧
    (∀ r, (router_call oracle tool arguments).2 = .ok r →
      ∀ c ∈ (router_call oracle tool arguments).1, stepOK oracle c = true) := by
  unfold router_call
  split
  · constructor
    · intro c hc
      simp at hc
    · intro r _ c hc
      cases hc
  · exact wrapEnv_abortSpec oracle _ (runBranch_abortSpec oracle _ _ _)

/-- The payload of the successful C5 witness run. -/
def refundPayload : Payload :=
  { scenario := "support", route := "router -> support",
    logs := ["Router classified as SUPPORT"], final := .jstr "We can help." }

/-- Witness for C5: on a successful SUPPORT run, the theorem yields that
the one attempted call succeeded. -/
theorem c5_collaborator_failure_aborts_witness :
    stepOK oracleSupportOk (supportCall "refund please") = true :=
  (c5_collaborator_failure_aborts oracleSupportOk "route_task"
      (some [("text", JVal.jstr "refund please")])).2
    (.env (build_response refundPayload))
    rfl (supportCall "refund please") (List.mem_cons_self _ _)
